import Mathlib

/-!
Verification of the tmux layout resolver described by this repository's
documentation (`tmux-sections-guide.md`) and of the image-generation
script `generate-image.ts`.  The layout resolver itself is implemented in
the external `@ghostmind/run` library; its behaviour is modelled here from
the specification and the reference guide.  The image-generation logic is
embedded directly from `generate-image.ts`.
-/

namespace TmuxLayout

/-- Modelled from the spec: the five fixed-arity grid types of Compact and
Grid layouts (`single|vertical|horizontal|two-by-two|main-side`). -/
inductive GridType where
  | single
  | vertical
  | horizontal
  | twoByTwo
  | mainSide
deriving Repr, DecidableEq

/-- Modelled from the spec: the fixed expected pane count of each grid type
(1/2/2/4/3 for single/vertical/horizontal/two-by-two/main-side). -/
def expectedCount : GridType → Nat
  | .single => 1
  | .vertical => 2
  | .horizontal => 2
  | .twoByTwo => 4
  | .mainSide => 3

/-- Modelled from the spec: a path is absolute when it starts with `/`. -/
def isAbsolute (p : String) : Bool :=
  match p.toList with
  | '/' :: _ => true
  | _ => false

/-- Modelled from the spec: joining a relative path onto a base directory. -/
def joinPath (base rel : String) : String := base ++ "/" ++ rel

/-- Modelled from the spec: the shared child-path resolution rule.  An
absolute child path is used verbatim; a relative non-empty child path is
resolved against the parent base; an absent or empty child path inherits
the parent base unchanged. -/
def resolveChild (base : String) : Option String → String
  | none => base
  | some p => if isAbsolute p then p else if p = "" then base else joinPath base p

/-- Modelled from the spec: the Session base directory is the session root
resolved against the process working directory. -/
def sessionBase (cwd : String) (root : Option String) : String :=
  resolveChild cwd root

/-- Modelled from the spec: the Window's effective base directory, namely
`Window.path` resolved against the Session base per `resolveChild`. -/
def windowBase (cwd : String) (root : Option String) (wpath : Option String) : String :=
  resolveChild (sessionBase cwd root) wpath

/-- Modelled from the spec: split directions of Section nodes. -/
inductive SplitDir where
  | horizontal
  | vertical
deriving Repr, DecidableEq

/-- Modelled from the spec: a Resolved Pane, the output record of the
resolver: name, final working directory, final command (possibly empty),
optional ssh target, split-direction ancestry with the enclosing section
sizes, and the pane's own advisory size. -/
structure ResolvedPane where
  name : String
  command : String
  path : String
  sshTarget : Option String
  splitAncestry : List (SplitDir × Option String)
  size : Option String
deriving Repr, DecidableEq

/-- Modelled from the spec: non-fatal warnings surfaced alongside a
successful resolution.  `paneCountMismatch` records how many panes were
auto-filled and how many were discarded. -/
inductive Warning where
  | paneCountMismatch (autoFilled : Nat) (discarded : Nat)
  | sizeSumMismatch
deriving Repr, DecidableEq

/-- Modelled from the spec: fatal resolution errors. -/
inductive ResolveError where
  | unknownLayoutKind
  | missingLayoutBody
  | duplicatePaneName
deriving Repr, DecidableEq

/-- Modelled from the spec: a Compact layout body, a grid type plus an
ordered name-to-command mapping (insertion order significant). -/
structure CompactSpec where
  type : GridType
  panes : List (String × String)
deriving Repr, DecidableEq

/-- Modelled from the spec: an explicit Grid pane object. -/
structure GridPane where
  name : String
  command : Option String
  path : Option String
  sshTarget : Option String
deriving Repr, DecidableEq

/-- Modelled from the spec: a Grid layout body, a grid type plus an ordered
sequence of explicit pane objects. -/
structure GridSpec where
  type : GridType
  panes : List GridPane
deriving Repr, DecidableEq

/-- Modelled from the spec: a Compact entry becomes a pane running in the
Window's base directory (Compact panes carry no individual path). -/
def compactPane (base : String) (p : String × String) : ResolvedPane :=
  { name := p.1, command := p.2, path := base, sshTarget := none,
    splitAncestry := [], size := none }

/-- Modelled from the spec: a Grid pane object resolved against the
Window's base directory per the shared child-path rule. -/
def gridPane (base : String) (p : GridPane) : ResolvedPane :=
  { name := p.name, command := p.command.getD "", path := resolveChild base p.path,
    sshTarget := p.sshTarget, splitAncestry := [], size := none }

/-- Modelled from the spec: a synthetic auto-filled pane `pane-{i}` with an
empty command, running in the Window's base directory. -/
def syntheticPane (base : String) (i : Nat) : ResolvedPane :=
  { name := "pane-" ++ toString i, command := "", path := base, sshTarget := none,
    splitAncestry := [], size := none }

/-- Modelled from the spec: the count-normalisation policy shared by
Compact and Grid resolution.  Fewer panes than expected: append synthetic
`pane-{i}` entries (0-based, starting at the first missing slot) and warn
with the auto-filled count.  More than expected: keep the first `expected`
in insertion order and warn with the discarded count. -/
def normalizeCount (base : String) (expected : Nat) (supplied : List ResolvedPane) :
    List ResolvedPane × List Warning :=
  let k := supplied.length
  if k < expected then
    (supplied ++ (List.range (expected - k)).map (fun i => syntheticPane base (k + i)),
     [Warning.paneCountMismatch (expected - k) 0])
  else if expected < k then
    (supplied.take expected, [Warning.paneCountMismatch 0 (k - expected)])
  else (supplied, [])

/-- Modelled from the spec: `resolveCompact` takes the mapping entries in
insertion order and normalises the count to the grid type's expectation. -/
def resolveCompact (base : String) (c : CompactSpec) :
    List ResolvedPane × List Warning :=
  normalizeCount base (expectedCount c.type) (c.panes.map (compactPane base))

/-- Modelled from the spec: `resolveGrid` resolves each explicit pane
object and applies the same count-normalisation policy as Compact. -/
def resolveGrid (base : String) (g : GridSpec) :
    List ResolvedPane × List Warning :=
  normalizeCount base (expectedCount g.type) (g.panes.map (gridPane base))

/-- Modelled from the spec: a Section item, either a Pane leaf (name,
optional command, optional path, optional ssh target, optional advisory
size) or a nested Split node (split direction, optional size, ordered
child items). -/
inductive SectionItem where
  | pane (name : String) (command : Option String) (path : Option String)
      (sshTarget : Option String) (size : Option String)
  | node (split : SplitDir) (size : Option String) (items : List SectionItem)
deriving Repr

/-- Modelled from the spec: the advisory size declared by an item. -/
def itemSize : SectionItem → Option String
  | .pane _ _ _ _ sz => sz
  | .node _ sz _ => sz

/-- Decimal value of a digit character, when it is one. -/
def digitVal (c : Char) : Option Nat :=
  if 48 ≤ c.toNat ∧ c.toNat ≤ 57 then some (c.toNat - 48) else none

/-- Natural number denoted by a non-empty string of decimal digits. -/
def natFromDigits : List Char → Option Nat
  | [] => none
  | cs =>
    cs.foldl
      (fun acc c =>
        match acc, digitVal c with
        | some n, some d => some (n * 10 + d)
        | _, _ => none)
      (some 0)

/-- Modelled from the spec: the numeric value of a percentage size string
such as `"75%"`; absolute tmux-unit sizes have no percentage value. -/
def percentVal (s : String) : Option Nat :=
  match s.toList.reverse with
  | '%' :: rest => natFromDigits rest.reverse
  | _ => none

/-- Modelled from the spec: the percentage sizes of a sibling list when
every sibling declares one. -/
def allPercents : List SectionItem → Option (List Nat)
  | [] => some []
  | i :: is =>
    match (itemSize i).bind percentVal, allPercents is with
    | some v, some vs => some (v :: vs)
    | _, _ => none

/-- Modelled from the spec: the direct children of a Split node fail the
size-sum check when every child declares a percentage size and the sizes
do not sum to 100% within a tolerance of 2. -/
def badSizeSum (items : List SectionItem) : Bool :=
  match allPercents items with
  | some vals =>
    !items.isEmpty && (decide (100 + 2 < vals.sum) || decide (vals.sum + 2 < 100))
  | none => false

mutual

/-- Modelled from the spec: recursive descent over a Section item,
producing Resolved Panes in depth-first items order.  A Pane leaf resolves
its path against the Window base per the shared child-path rule and is
tagged with the accumulated split-direction ancestry; a Split node recurses
into its children with its direction and size appended to the ancestry. -/
def sectionPanes (base : String) (anc : List (SplitDir × Option String)) :
    SectionItem → List ResolvedPane
  | .pane n c p ssh sz =>
      [{ name := n, command := c.getD "", path := resolveChild base p,
         sshTarget := ssh, splitAncestry := anc, size := sz }]
  | .node d sz items => sectionPanesList base (anc ++ [(d, sz)]) items

/-- Modelled from the spec: depth-first pane collection over an ordered
list of sibling items. -/
def sectionPanesList (base : String) (anc : List (SplitDir × Option String)) :
    List SectionItem → List ResolvedPane
  | [] => []
  | i :: is => sectionPanes base anc i ++ sectionPanesList base anc is

end

mutual

/-- Modelled from the spec: the non-fatal size-sum warnings collected over
a Section tree; each Split node whose direct children fail the size-sum
check contributes one `sizeSumMismatch` warning. -/
def sectionWarnings : SectionItem → List Warning
  | .pane _ _ _ _ _ => []
  | .node _ _ items =>
      (if badSizeSum items then [Warning.sizeSumMismatch] else []) ++
        sectionWarningsList items

/-- Modelled from the spec: size-sum warnings over a list of sibling
items. -/
def sectionWarningsList : List SectionItem → List Warning
  | [] => []
  | i :: is => sectionWarnings i ++ sectionWarningsList is

end

mutual

/-- Modelled from the spec: the declared leaf names of a Section tree, in
depth-first items order. -/
def leafNames : SectionItem → List String
  | .pane n _ _ _ _ => [n]
  | .node _ _ items => leafNamesList items

/-- Modelled from the spec: declared leaf names over a list of sibling
items. -/
def leafNamesList : List SectionItem → List String
  | [] => []
  | i :: is => leafNames i ++ leafNamesList is

end

mutual

/-- Modelled from the spec: whether some Split node of a Section tree has
direct children failing the size-sum check. -/
def hasBadNode : SectionItem → Bool
  | .pane _ _ _ _ _ => false
  | .node _ _ items => badSizeSum items || hasBadNodeList items

/-- Modelled from the spec: whether some Split node under a list of sibling
items fails the size-sum check. -/
def hasBadNodeList : List SectionItem → Bool
  | [] => false
  | i :: is => hasBadNode i || hasBadNodeList is

end

/-- Modelled from the spec: `resolveSection` resolves the root Section of a
Window into its depth-first pane list plus size-sum warnings. -/
def resolveSection (base : String) (sec : SectionItem) :
    List ResolvedPane × List Warning :=
  (sectionPanes base [] sec, sectionWarnings sec)

/-- Modelled from the spec: a Window, with a name, an optional path, the
`layout` string discriminant, and the three optional layout bodies of the
source configuration object (`compact`/`grid`/`section`). -/
structure Window where
  name : String
  path : Option String
  layout : String
  compact : Option CompactSpec
  grid : Option GridSpec
  sect : Option SectionItem

/-- Modelled from the spec: a Session, with a name, an optional root
working directory and an ordered sequence of Windows. -/
structure Session where
  name : String
  root : Option String
  windows : List Window

/-- Modelled from the spec: boolean uniqueness of a list of pane names. -/
def nodupNames : List String → Bool
  | [] => true
  | n :: ns => !ns.contains n && nodupNames ns

/-- Modelled from the spec: the duplicate-pane-name check applied to a
resolved pane list; two panes of the same Window sharing a name is a fatal
`duplicatePaneName` error. -/
def checkDups (r : List ResolvedPane × List Warning) :
    Except ResolveError (List ResolvedPane × List Warning) :=
  if nodupNames (r.1.map ResolvedPane.name) then Except.ok r
  else Except.error ResolveError.duplicatePaneName

/-- Modelled from the spec: `resolveWindow` inspects the `layout`
discriminant, fails with `unknownLayoutKind` for a value outside
`compact|grid|sections` and with `missingLayoutBody` when the matching body
is absent, and otherwise dispatches to the matching resolver and applies
the duplicate-name check. -/
def resolveWindow (cwd : String) (s : Session) (w : Window) :
    Except ResolveError (List ResolvedPane × List Warning) :=
  if w.layout = "compact" then
    match w.compact with
    | some c => checkDups (resolveCompact (windowBase cwd s.root w.path) c)
    | none => Except.error ResolveError.missingLayoutBody
  else if w.layout = "grid" then
    match w.grid with
    | some g => checkDups (resolveGrid (windowBase cwd s.root w.path) g)
    | none => Except.error ResolveError.missingLayoutBody
  else if w.layout = "sections" then
    match w.sect with
    | some sec => checkDups (resolveSection (windowBase cwd s.root w.path) sec)
    | none => Except.error ResolveError.missingLayoutBody
  else Except.error ResolveError.unknownLayoutKind

/-- Modelled from the spec: resolution is per-Window; a Session resolves to
the list of each Window's independent resolution result. -/
def resolveSession (cwd : String) (s : Session) :
    List (Except ResolveError (List ResolvedPane × List Warning)) :=
  s.windows.map (resolveWindow cwd s)

end TmuxLayout

namespace GenerateImage

/-- Extension extraction modelling Node's `path.extname` as used by
`generate-image.ts`: the suffix of the path's last `/`-separated component
from its last `.` onward; a component with no dot, or whose only dot is its
leading character (a dotfile), has no extension. -/
def extnameChars (b : List Char) : List Char :=
  let after := (b.reverse.takeWhile (fun c => c ≠ '.')).reverse
  if after.length = b.length then []
  else
    let i := b.length - after.length - 1
    if i = 0 then [] else b.drop i

/-- Extension of a path string, per `path.extname` on the component after
the last `/`. -/
def extname (p : String) : String :=
  String.mk (extnameChars ((p.toList.reverse.takeWhile (fun c => c ≠ '/')).reverse))

/-- From `generate-image.ts` lines 23-32: the MIME type chosen for an
already-lowercased extension string. -/
def mimeTypeOfExt (ext : String) : String :=
  if ext = ".jpg" ∨ ext = ".jpeg" then "image/jpeg"
  else if ext = ".png" then "image/png"
  else if ext = ".webp" then "image/webp"
  else if ext = ".gif" then "image/gif"
  else "image/png"

/-- Lowercasing of a string, characterwise. -/
def lowerStr (s : String) : String :=
  String.mk (s.toList.map Char.toLower)

/-- From `generate-image.ts` line 22: the MIME type of an input image path
is chosen from its lowercased extension. -/
def mimeTypeOf (p : String) : String :=
  mimeTypeOfExt (lowerStr (extname p))

/-- From `generate-image.ts`: a response part, with an optional `text`
field and an optional `inlineData` field carrying base64 image data. -/
structure Part where
  text : Option String
  inlineData : Option String
deriving Repr, DecidableEq

/-- JavaScript truthiness of an optional string field: present and
non-empty. -/
def truthyStr : Option String → Bool
  | none => false
  | some s => s ≠ ""

/-- From `generate-image.ts` line 50: `options.outputPath ||
'generated-image.png'`; the JavaScript `||` falls back to the default for
an absent or empty output path. -/
def resolveOutputPath : Option String → String
  | none => "generated-image.png"
  | some s => if s = "" then "generated-image.png" else s

/-- From `generate-image.ts` lines 52-64: the loop over the response
parts.  A part with truthy `text` is logged and skipped (even when it also
carries `inlineData`); otherwise a part with `inlineData` causes the image
write and returns the output path; if the loop ends, an error is thrown.
A successful result carries the written path and the written data; an
error result performs no write. -/
def processParts (out : String) : List Part → Except String (String × String)
  | [] => Except.error "No image was generated in the response"
  | p :: ps =>
    if truthyStr p.text then processParts out ps
    else
      match p.inlineData with
      | some d => Except.ok (out, d)
      | none => processParts out ps

/-- From `generate-image.ts`: the part-handling core of `generateImage`,
after the external API call returned the given parts. -/
def generateImageParts (outputPath : Option String) (parts : List Part) :
    Except String (String × String) :=
  processParts (resolveOutputPath outputPath) parts

end GenerateImage

namespace TmuxLayout

theorem normalizeCount_length (base : String) (n : Nat) (supplied : List ResolvedPane) :
    ((normalizeCount base n supplied).1).length = n := by
  unfold normalizeCount
  by_cases h1 : supplied.length < n
  · simp [h1]
    omega
  · by_cases h2 : n < supplied.length
    · simp [h1, h2]
      omega
    · simp [h1, h2]
      omega

theorem normalizeCount_lt (base : String) (n : Nat) (supplied : List ResolvedPane)
    (h : supplied.length < n) :
    normalizeCount base n supplied =
      (supplied ++ (List.range (n - supplied.length)).map
          (fun i => syntheticPane base (supplied.length + i)),
       [Warning.paneCountMismatch (n - supplied.length) 0]) := by
  unfold normalizeCount
  simp [h]

theorem normalizeCount_gt (base : String) (n : Nat) (supplied : List ResolvedPane)
    (h : n < supplied.length) :
    normalizeCount base n supplied =
      (supplied.take n, [Warning.paneCountMismatch 0 (supplied.length - n)]) := by
  unfold normalizeCount
  simp [h, Nat.not_lt.mpr (Nat.le_of_lt h)]

/-- C1: for every Compact or Grid layout specification, the resolved pane
list has length exactly the grid type's fixed expected count (1/2/2/4/3 for
single/vertical/horizontal/two-by-two/main-side), regardless of how many
panes the input supplies, including zero. -/
theorem claim_c1_output_length :
    (∀ (base : String) (c : CompactSpec),
        ((resolveCompact base c).1).length = expectedCount c.type) ∧
    (∀ (base : String) (g : GridSpec),
        ((resolveGrid base g).1).length = expectedCount g.type) ∧
    expectedCount GridType.single = 1 ∧
    expectedCount GridType.vertical = 2 ∧
    expectedCount GridType.horizontal = 2 ∧
    expectedCount GridType.twoByTwo = 4 ∧
    expectedCount GridType.mainSide = 3 := by
  refine ⟨fun base c => ?_, fun base g => ?_, rfl, rfl, rfl, rfl, rfl⟩
  · exact normalizeCount_length base (expectedCount c.type) _
  · exact normalizeCount_length base (expectedCount g.type) _

/-- C3: supplying k panes with k below the expected count n appends exactly
n - k synthetic panes with empty command, named `pane-{i}` for i running
from k to n - 1, and surfaces a non-fatal `paneCountMismatch` warning
carrying the auto-filled count; in particular a two-by-two Compact layout
with panes api and db yields api, db, pane-2, pane-3. -/
theorem claim_c3_autofill :
    (∀ (base : String) (c : CompactSpec),
        c.panes.length < expectedCount c.type →
        (resolveCompact base c).1 =
          c.panes.map (compactPane base) ++
            (List.range (expectedCount c.type - c.panes.length)).map
              (fun i => syntheticPane base (c.panes.length + i)) ∧
        (resolveCompact base c).2 =
          [Warning.paneCountMismatch (expectedCount c.type - c.panes.length) 0]) ∧
    (∀ (base : String) (g : GridSpec),
        g.panes.length < expectedCount g.type →
        (resolveGrid base g).1 =
          g.panes.map (gridPane base) ++
            (List.range (expectedCount g.type - g.panes.length)).map
              (fun i => syntheticPane base (g.panes.length + i)) ∧
        (resolveGrid base g).2 =
          [Warning.paneCountMismatch (expectedCount g.type - g.panes.length) 0]) ∧
    (∀ (base : String) (i : Nat),
        (syntheticPane base i).name = "pane-" ++ toString i ∧
        (syntheticPane base i).command = "") ∧
    (resolveCompact "/w"
        { type := GridType.twoByTwo,
          panes := [("api", "npm start"), ("db", "docker-compose up")] }).1.map
        ResolvedPane.name = ["api", "db", "pane-2", "pane-3"] ∧
    (resolveCompact "/w"
        { type := GridType.twoByTwo,
          panes := [("api", "npm start"), ("db", "docker-compose up")] }).2 =
      [Warning.paneCountMismatch 2 0] := by
  refine ⟨fun base c h => ?_, fun base g h => ?_, fun base i => ⟨rfl, rfl⟩, by decide, by decide⟩
  · have hlen : (c.panes.map (compactPane base)).length < expectedCount c.type := by
      simpa using h
    have := normalizeCount_lt base (expectedCount c.type) (c.panes.map (compactPane base)) hlen
    unfold resolveCompact
    rw [this]
    simp
  · have hlen : (g.panes.map (gridPane base)).length < expectedCount g.type := by
      simpa using h
    have := normalizeCount_lt base (expectedCount g.type) (g.panes.map (gridPane base)) hlen
    unfold resolveGrid
    rw [this]
    simp

/-- Witness for C3: the two-by-two Compact layout supplying api and db
auto-fills pane-2 and pane-3 and warns that 2 panes were auto-filled. -/
theorem claim_c3_autofill_witness :
    (resolveCompact "/w"
        { type := GridType.twoByTwo,
          panes := [("api", "npm start"), ("db", "docker-compose up")] }).1 =
      [("api", "npm start"), ("db", "docker-compose up")].map (compactPane "/w") ++
        (List.range 2).map (fun i => syntheticPane "/w" (2 + i)) ∧
    (resolveCompact "/w"
        { type := GridType.twoByTwo,
          panes := [("api", "npm start"), ("db", "docker-compose up")] }).2 =
      [Warning.paneCountMismatch 2 0] :=
  claim_c3_autofill.1 "/w"
    { type := GridType.twoByTwo,
      panes := [("api", "npm start"), ("db", "docker-compose up")] } (by decide)

/-- C2: the pane working directory follows the inheritance chain: an
absolute pane path is used verbatim; a relative non-empty pane path is
resolved against the Window's effective base directory; an absent pane
path inherits the Window base unchanged; the Window base itself is
Window.path verbatim when absolute, joined to the Session base when
relative and non-empty, and the Session base otherwise, falling back to
the process default when the Session has no root.  In particular Session
root `/a`, Window path `b`, Pane path absent resolves to `/a/b`, and an
absolute Pane path `/c` resolves to `/c`. -/
theorem claim_c2_path_inheritance :
    (∀ (cwd : String) (root wpath : Option String) (p : String),
        isAbsolute p = true →
        resolveChild (windowBase cwd root wpath) (some p) = p) ∧
    (∀ (cwd : String) (root wpath : Option String) (p : String),
        isAbsolute p = false → p ≠ "" →
        resolveChild (windowBase cwd root wpath) (some p) =
          joinPath (windowBase cwd root wpath) p) ∧
    (∀ (cwd : String) (root wpath : Option String),
        resolveChild (windowBase cwd root wpath) none = windowBase cwd root wpath) ∧
    (∀ (cwd : String) (root : Option String) (p : String),
        isAbsolute p = true → windowBase cwd root (some p) = p) ∧
    (∀ (cwd : String) (root : Option String) (p : String),
        isAbsolute p = false → p ≠ "" →
        windowBase cwd root (some p) = joinPath (sessionBase cwd root) p) ∧
    (∀ (cwd : String) (root : Option String),
        windowBase cwd root none = sessionBase cwd root) ∧
    (∀ cwd : String, sessionBase cwd none = cwd) ∧
    resolveWindow "/cwd" ⟨"s", some "/a", []⟩
        ⟨"w", some "b", "grid", none, some ⟨GridType.single, [⟨"p", none, none, none⟩]⟩, none⟩ =
      Except.ok ([⟨"p", "", "/a/b", none, [], none⟩], []) ∧
    resolveWindow "/cwd" ⟨"s", some "/a", []⟩
        ⟨"w", some "b", "grid", none, some ⟨GridType.single, [⟨"p", none, some "/c", none⟩]⟩, none⟩ =
      Except.ok ([⟨"p", "", "/c", none, [], none⟩], []) := by
  refine ⟨fun cwd root wpath p hp => by simp [resolveChild, hp],
    fun cwd root wpath p hp hne => by simp [resolveChild, hp, hne],
    fun cwd root wpath => rfl,
    fun cwd root p hp => by simp [windowBase, resolveChild, hp],
    fun cwd root p hp hne => by simp [windowBase, resolveChild, hp, hne],
    fun cwd root => rfl,
    fun cwd => rfl,
    rfl, rfl⟩

/-- Witness for C2: under Session root `/a` and Window path `b`, the
absolute pane path `/c` is used verbatim and the relative pane path `d`
resolves to `/a/b/d`. -/
theorem claim_c2_path_inheritance_witness :
    resolveChild (windowBase "/cwd" (some "/a") (some "b")) (some "/c") = "/c" ∧
    resolveChild (windowBase "/cwd" (some "/a") (some "b")) (some "d") =
      joinPath (windowBase "/cwd" (some "/a") (some "b")) "d" ∧
    windowBase "/cwd" (some "/a") (some "b") = joinPath (sessionBase "/cwd" (some "/a")) "b" :=
  ⟨claim_c2_path_inheritance.1 "/cwd" (some "/a") (some "b") "/c" (by decide),
   claim_c2_path_inheritance.2.1 "/cwd" (some "/a") (some "b") "d" (by decide) (by decide),
   claim_c2_path_inheritance.2.2.2.2.1 "/cwd" (some "/a") "b" (by decide) (by decide)⟩

/-- C4: supplying more panes than the expected count retains exactly the
first `expected` panes in insertion order, discards the rest, and surfaces
a non-fatal warning carrying the discarded count; the retained list is a
deterministic function of the input. -/
theorem claim_c4_truncate :
    (∀ (base : String) (c : CompactSpec),
        expectedCount c.type < c.panes.length →
        (resolveCompact base c).1 =
          (c.panes.take (expectedCount c.type)).map (compactPane base) ∧
        (resolveCompact base c).2 =
          [Warning.paneCountMismatch 0 (c.panes.length - expectedCount c.type)]) ∧
    (∀ (base : String) (g : GridSpec),
        expectedCount g.type < g.panes.length →
        (resolveGrid base g).1 =
          (g.panes.take (expectedCount g.type)).map (gridPane base) ∧
        (resolveGrid base g).2 =
          [Warning.paneCountMismatch 0 (g.panes.length - expectedCount g.type)]) ∧
    (∀ (base : String) (c c' : CompactSpec), c = c' →
        resolveCompact base c = resolveCompact base c') ∧
    (∀ (base : String) (g g' : GridSpec), g = g' →
        resolveGrid base g = resolveGrid base g') := by
  refine ⟨fun base c h => ?_, fun base g h => ?_,
    fun base c c' h => by rw [h], fun base g g' h => by rw [h]⟩
  · have hlen : expectedCount c.type < (c.panes.map (compactPane base)).length := by
      simpa using h
    have := normalizeCount_gt base (expectedCount c.type) (c.panes.map (compactPane base)) hlen
    unfold resolveCompact
    rw [this]
    simp [List.map_take]
  · have hlen : expectedCount g.type < (g.panes.map (gridPane base)).length := by
      simpa using h
    have := normalizeCount_gt base (expectedCount g.type) (g.panes.map (gridPane base)) hlen
    unfold resolveGrid
    rw [this]
    simp [List.map_take]

/-- Witness for C4: a vertical Compact layout supplying three panes keeps
the first two and warns that one pane was discarded. -/
theorem claim_c4_truncate_witness :
    (resolveCompact "/w"
        { type := GridType.vertical,
          panes := [("a", "1"), ("b", "2"), ("c", "3")] }).1 =
      ([("a", "1"), ("b", "2"), ("c", "3")].take 2).map (compactPane "/w") ∧
    (resolveCompact "/w"
        { type := GridType.vertical,
          panes := [("a", "1"), ("b", "2"), ("c", "3")] }).2 =
      [Warning.paneCountMismatch 0 1] :=
  claim_c4_truncate.1 "/w"
    { type := GridType.vertical, panes := [("a", "1"), ("b", "2"), ("c", "3")] }
    (by decide)

mutual

theorem sectionPanes_map_name (base : String) (anc : List (SplitDir × Option String))
    (it : SectionItem) :
    (sectionPanes base anc it).map ResolvedPane.name = leafNames it := by
  cases it with
  | pane n c p ssh sz => simp [sectionPanes, leafNames]
  | node d sz items =>
    simp only [sectionPanes, leafNames]
    exact sectionPanesList_map_name base (anc ++ [(d, sz)]) items

theorem sectionPanesList_map_name (base : String) (anc : List (SplitDir × Option String))
    (its : List SectionItem) :
    (sectionPanesList base anc its).map ResolvedPane.name = leafNamesList its := by
  cases its with
  | nil => simp [sectionPanesList, leafNamesList]
  | cons i is =>
    simp only [sectionPanesList, leafNamesList, List.map_append]
    rw [sectionPanes_map_name base anc i, sectionPanesList_map_name base anc is]

end

theorem sectionPanesList_append (base : String) (anc : List (SplitDir × Option String))
    (l1 l2 : List SectionItem) :
    sectionPanesList base anc (l1 ++ l2) =
      sectionPanesList base anc l1 ++ sectionPanesList base anc l2 := by
  induction l1 with
  | nil => simp [sectionPanesList]
  | cons i is ih => simp [sectionPanesList, ih]

mutual

theorem hasBadNode_warning (it : SectionItem) (h : hasBadNode it = true) :
    Warning.sizeSumMismatch ∈ sectionWarnings it := by
  cases it with
  | pane n c p ssh sz => simp [hasBadNode] at h
  | node d sz items =>
    simp only [hasBadNode, Bool.or_eq_true] at h
    simp only [sectionWarnings, List.mem_append]
    rcases h with h | h
    · exact Or.inl (by simp [h])
    · exact Or.inr (hasBadNodeList_warning items h)

theorem hasBadNodeList_warning (its : List SectionItem) (h : hasBadNodeList its = true) :
    Warning.sizeSumMismatch ∈ sectionWarningsList its := by
  cases its with
  | nil => simp [hasBadNodeList] at h
  | cons i is =>
    simp only [hasBadNodeList, Bool.or_eq_true] at h
    simp only [sectionWarningsList, List.mem_append]
    rcases h with h | h
    · exact Or.inl (hasBadNode_warning i h)
    · exact Or.inr (hasBadNodeList_warning is h)

end

/-- C5: Section resolution produces the Resolved Panes in depth-first,
items-array order matching the declared nesting: the resolved names equal
the declared leaf names in order, sibling lists resolve to the
concatenation of their parts in declared order, and each pane carries its
full split-direction ancestry and size chain, as on the nested example
whose declared order sidebar, editor, terminal is reproduced with editor
and terminal tagged under the inner horizontal split of the outer vertical
split. -/
theorem claim_c5_depth_first_order :
    (∀ (base : String) (anc : List (SplitDir × Option String)) (it : SectionItem),
        (sectionPanes base anc it).map ResolvedPane.name = leafNames it) ∧
    (∀ (base : String) (anc : List (SplitDir × Option String))
        (l1 l2 : List SectionItem),
        sectionPanesList base anc (l1 ++ l2) =
          sectionPanesList base anc l1 ++ sectionPanesList base anc l2) ∧
    resolveSection "/b"
        (SectionItem.node SplitDir.vertical none
          [SectionItem.pane "sidebar" (some "ranger") none none (some "25%"),
           SectionItem.node SplitDir.horizontal (some "75%")
             [SectionItem.pane "editor" (some "nvim") none none (some "70%"),
              SectionItem.pane "terminal" (some "bash") none none (some "30%")]]) =
      ([⟨"sidebar", "ranger", "/b", none, [(SplitDir.vertical, none)], some "25%"⟩,
        ⟨"editor", "nvim", "/b", none,
          [(SplitDir.vertical, none), (SplitDir.horizontal, some "75%")], some "70%"⟩,
        ⟨"terminal", "bash", "/b", none,
          [(SplitDir.vertical, none), (SplitDir.horizontal, some "75%")], some "30%"⟩],
       []) :=
  ⟨sectionPanes_map_name, sectionPanesList_append, by decide⟩

theorem checkDups_ok (r res : List ResolvedPane × List Warning)
    (h : checkDups r = Except.ok res) :
    res = r ∧ nodupNames (res.1.map ResolvedPane.name) = true := by
  unfold checkDups at h
  by_cases hd : nodupNames (r.1.map ResolvedPane.name) = true
  · rw [if_pos hd] at h
    injection h with h
    exact ⟨h.symm, h ▸ hd⟩
  · rw [if_neg hd] at h
    exact Except.noConfusion h

theorem checkDups_err (r : List ResolvedPane × List Warning) (e : ResolveError)
    (h : checkDups r = Except.error e) : e = ResolveError.duplicatePaneName := by
  unfold checkDups at h
  by_cases hd : nodupNames (r.1.map ResolvedPane.name) = true
  · rw [if_pos hd] at h
    exact Except.noConfusion h
  · rw [if_neg hd] at h
    injection h with h
    exact h.symm

theorem resolveWindow_ok_nodup (cwd : String) (s : Session) (w : Window)
    (res : List ResolvedPane × List Warning)
    (h : resolveWindow cwd s w = Except.ok res) :
    nodupNames (res.1.map ResolvedPane.name) = true := by
  unfold resolveWindow at h
  by_cases h1 : w.layout = "compact"
  · rw [if_pos h1] at h
    cases hc : w.compact with
    | none => rw [hc] at h; exact Except.noConfusion h
    | some c => rw [hc] at h; exact (checkDups_ok _ _ h).2
  · rw [if_neg h1] at h
    by_cases h2 : w.layout = "grid"
    · rw [if_pos h2] at h
      cases hg : w.grid with
      | none => rw [hg] at h; exact Except.noConfusion h
      | some g => rw [hg] at h; exact (checkDups_ok _ _ h).2
    · rw [if_neg h2] at h
      by_cases h3 : w.layout = "sections"
      · rw [if_pos h3] at h
        cases hs : w.sect with
        | none => rw [hs] at h; exact Except.noConfusion h
        | some sec => rw [hs] at h; exact (checkDups_ok _ _ h).2
      · rw [if_neg h3] at h
        exact Except.noConfusion h

/-- C6: a Window two of whose panes share a name fails resolution with
`duplicatePaneName` and produces no partial result; equivalently, every
successfully resolved Window has pairwise distinct pane names.  The second
conjunct instantiates the failure direction for a Section layout whose
declared leaf names repeat. -/
theorem claim_c6_duplicate_names :
    (∀ (cwd : String) (s : Session) (w : Window)
        (res : List ResolvedPane × List Warning),
        resolveWindow cwd s w = Except.ok res →
        nodupNames (res.1.map ResolvedPane.name) = true) ∧
    (∀ (cwd : String) (s : Session) (wname : String) (wpath : Option String)
        (oc : Option CompactSpec) (og : Option GridSpec) (sec : SectionItem),
        nodupNames (leafNames sec) = false →
        resolveWindow cwd s ⟨wname, wpath, "sections", oc, og, some sec⟩ =
          Except.error ResolveError.duplicatePaneName) := by
  refine ⟨resolveWindow_ok_nodup, fun cwd s wname wpath oc og sec hdup => ?_⟩
  show (if ("sections" : String) = "compact" then _
    else if ("sections" : String) = "grid" then _
    else if ("sections" : String) = "sections" then _
    else _) = _
  rw [if_neg (by decide), if_neg (by decide), if_pos rfl]
  show checkDups (resolveSection (windowBase cwd s.root wpath) sec) = _
  unfold checkDups
  rw [show (resolveSection (windowBase cwd s.root wpath) sec).1 =
      sectionPanes (windowBase cwd s.root wpath) [] sec from rfl,
    sectionPanes_map_name, hdup]
  simp

/-- Witness for C6: a Section layout with two leaves both named main fails
with `duplicatePaneName`, and a successfully resolved two-pane window has
distinct names. -/
theorem claim_c6_duplicate_names_witness :
    resolveWindow "/cwd" ⟨"s", none, []⟩
        ⟨"w", none, "sections", none, none,
          some (SectionItem.node SplitDir.vertical none
            [SectionItem.pane "main" none none none none,
             SectionItem.pane "main" none none none none])⟩ =
      Except.error ResolveError.duplicatePaneName ∧
    nodupNames (([⟨"a", "x", "/cwd", none, [], none⟩,
        ⟨"b", "y", "/cwd", none, [], none⟩] : List ResolvedPane).map
        ResolvedPane.name) = true :=
  ⟨claim_c6_duplicate_names.2 "/cwd" ⟨"s", none, []⟩ "w" none none none
      (SectionItem.node SplitDir.vertical none
        [SectionItem.pane "main" none none none none,
         SectionItem.pane "main" none none none none]) (by decide),
   claim_c6_duplicate_names.1 "/cwd" ⟨"s", none, []⟩
      ⟨"w", none, "grid", none,
        some ⟨GridType.vertical,
          [⟨"a", some "x", none, none⟩, ⟨"b", some "y", none, none⟩]⟩, none⟩
      ([⟨"a", "x", "/cwd", none, [], none⟩, ⟨"b", "y", "/cwd", none, [], none⟩], [])
      (by rfl)⟩

/-- C7: `resolveWindow` fails with `unknownLayoutKind` exactly when the
layout discriminant is outside `compact|grid|sections`, fails with
`missingLayoutBody` when the discriminant is valid but the matching body is
absent, and resolution is per-Window: a Session entry's result depends only
on that Window and the Session root, so other Windows are unaffected. -/
theorem claim_c7_dispatch_errors :
    (∀ (cwd : String) (s : Session) (w : Window),
        resolveWindow cwd s w = Except.error ResolveError.unknownLayoutKind ↔
          (w.layout ≠ "compact" ∧ w.layout ≠ "grid" ∧ w.layout ≠ "sections")) ∧
    (∀ (cwd : String) (s : Session) (w : Window),
        (w.layout = "compact" ∧ w.compact = none) ∨
          (w.layout = "grid" ∧ w.grid = none) ∨
          (w.layout = "sections" ∧ w.sect = none) →
        resolveWindow cwd s w = Except.error ResolveError.missingLayoutBody) ∧
    (∀ (cwd : String) (s1 s2 : Session) (i : Nat),
        s1.root = s2.root → s1.windows[i]? = s2.windows[i]? →
        (resolveSession cwd s1)[i]? = (resolveSession cwd s2)[i]?) := by
  refine ⟨fun cwd s w => ⟨fun h => ?_, fun h => ?_⟩,
    fun cwd s w h => ?_, fun cwd s1 s2 i hroot hwin => ?_⟩
  · unfold resolveWindow at h
    by_cases h1 : w.layout = "compact"
    · rw [if_pos h1] at h
      cases hc : w.compact with
      | none =>
        rw [hc] at h
        injection h with h
        exact absurd h (by decide)
      | some c =>
        rw [hc] at h
        exact absurd (checkDups_err _ _ h) (by decide)
    · rw [if_neg h1] at h
      by_cases h2 : w.layout = "grid"
      · rw [if_pos h2] at h
        cases hg : w.grid with
        | none =>
          rw [hg] at h
          injection h with h
          exact absurd h (by decide)
        | some g =>
          rw [hg] at h
          exact absurd (checkDups_err _ _ h) (by decide)
      · rw [if_neg h2] at h
        by_cases h3 : w.layout = "sections"
        · rw [if_pos h3] at h
          cases hs : w.sect with
          | none =>
            rw [hs] at h
            injection h with h
            exact absurd h (by decide)
          | some sec =>
            rw [hs] at h
            exact absurd (checkDups_err _ _ h) (by decide)
        · exact ⟨h1, h2, h3⟩
  · unfold resolveWindow
    rw [if_neg h.1, if_neg h.2.1, if_neg h.2.2]
  · rcases h with ⟨h1, hb⟩ | ⟨h1, hb⟩ | ⟨h1, hb⟩
    · unfold resolveWindow
      rw [if_pos h1, hb]
    · unfold resolveWindow
      rw [if_neg (by rw [h1]; decide), if_pos h1, hb]
    · unfold resolveWindow
      rw [if_neg (by rw [h1]; decide), if_neg (by rw [h1]; decide), if_pos h1, hb]
  · have hfun : ∀ w, resolveWindow cwd s1 w = resolveWindow cwd s2 w := by
      intro w
      unfold resolveWindow
      rw [hroot]
    unfold resolveSession
    rw [List.getElem?_map, List.getElem?_map, hwin]
    cases s2.windows[i]? with
    | none => rfl
    | some w => simp [hfun]

/-- Witness for C7: a window whose layout is `weird` fails with
`unknownLayoutKind`, a `grid` window without a grid body fails with
`missingLayoutBody`, and equal Windows under equal roots resolve equally
inside their Sessions. -/
theorem claim_c7_dispatch_errors_witness :
    resolveWindow "/cwd" ⟨"s", none, []⟩ ⟨"w", none, "weird", none, none, none⟩ =
      Except.error ResolveError.unknownLayoutKind ∧
    resolveWindow "/cwd" ⟨"s", none, []⟩ ⟨"w", none, "grid", none, none, none⟩ =
      Except.error ResolveError.missingLayoutBody ∧
    (resolveSession "/cwd"
        ⟨"s1", none, [⟨"w", none, "weird", none, none, none⟩]⟩)[0]? =
      (resolveSession "/cwd"
        ⟨"s2", none, [⟨"w", none, "weird", none, none, none⟩]⟩)[0]? :=
  ⟨(claim_c7_dispatch_errors.1 "/cwd" ⟨"s", none, []⟩
      ⟨"w", none, "weird", none, none, none⟩).mpr
      ⟨by decide, by decide, by decide⟩,
   claim_c7_dispatch_errors.2.1 "/cwd" ⟨"s", none, []⟩
      ⟨"w", none, "grid", none, none, none⟩ (Or.inr (Or.inl ⟨rfl, rfl⟩)),
   claim_c7_dispatch_errors.2.2 "/cwd"
      ⟨"s1", none, [⟨"w", none, "weird", none, none, none⟩]⟩
      ⟨"s2", none, [⟨"w", none, "weird", none, none, none⟩]⟩ 0 rfl rfl⟩

/-- C8: a size-sum mismatch never causes Section resolution to fail:
a sections Window can only fail with `duplicatePaneName`; with distinct
leaf names it succeeds with the full depth-first pane list regardless of
declared sizes; and whenever some Split node's children declare percentage
sizes not summing to 100% within tolerance, the non-fatal
`sizeSumMismatch` warning is among the surfaced warnings. -/
theorem claim_c8_size_sum_warning :
    (∀ (cwd : String) (s : Session) (wname : String) (wpath : Option String)
        (oc : Option CompactSpec) (og : Option GridSpec) (sec : SectionItem)
        (e : ResolveError),
        resolveWindow cwd s ⟨wname, wpath, "sections", oc, og, some sec⟩ =
          Except.error e →
        e = ResolveError.duplicatePaneName) ∧
    (∀ (cwd : String) (s : Session) (wname : String) (wpath : Option String)
        (oc : Option CompactSpec) (og : Option GridSpec) (sec : SectionItem),
        nodupNames (leafNames sec) = true →
        resolveWindow cwd s ⟨wname, wpath, "sections", oc, og, some sec⟩ =
          Except.ok (sectionPanes (windowBase cwd s.root wpath) [] sec,
            sectionWarnings sec)) ∧
    (∀ sec : SectionItem, hasBadNode sec = true →
        Warning.sizeSumMismatch ∈ sectionWarnings sec) := by
  refine ⟨fun cwd s wname wpath oc og sec e h => ?_,
    fun cwd s wname wpath oc og sec hnd => ?_, hasBadNode_warning⟩
  · rw [show resolveWindow cwd s ⟨wname, wpath, "sections", oc, og, some sec⟩ =
        checkDups (resolveSection (windowBase cwd s.root wpath) sec) from rfl] at h
    exact checkDups_err _ _ h
  · rw [show resolveWindow cwd s ⟨wname, wpath, "sections", oc, og, some sec⟩ =
        checkDups (resolveSection (windowBase cwd s.root wpath) sec) from rfl]
    unfold checkDups
    rw [show (resolveSection (windowBase cwd s.root wpath) sec).1 =
        sectionPanes (windowBase cwd s.root wpath) [] sec from rfl,
      sectionPanes_map_name, hnd]
    rfl

/-- Witness for C8: a two-leaf Section whose sizes declare 30% and 30%
resolves successfully with its full pane list while surfacing the
`sizeSumMismatch` warning, and a duplicate-name failure is the only error
form. -/
theorem claim_c8_size_sum_warning_witness :
    resolveWindow "/cwd" ⟨"s", none, []⟩
        ⟨"w", none, "sections", none, none,
          some (SectionItem.node SplitDir.vertical none
            [SectionItem.pane "a" none none none (some "30%"),
             SectionItem.pane "b" none none none (some "30%")])⟩ =
      Except.ok (sectionPanes "/cwd" []
          (SectionItem.node SplitDir.vertical none
            [SectionItem.pane "a" none none none (some "30%"),
             SectionItem.pane "b" none none none (some "30%")]),
        sectionWarnings
          (SectionItem.node SplitDir.vertical none
            [SectionItem.pane "a" none none none (some "30%"),
             SectionItem.pane "b" none none none (some "30%")])) ∧
    Warning.sizeSumMismatch ∈ sectionWarnings
        (SectionItem.node SplitDir.vertical none
          [SectionItem.pane "a" none none none (some "30%"),
           SectionItem.pane "b" none none none (some "30%")]) ∧
    ResolveError.duplicatePaneName = ResolveError.duplicatePaneName :=
  ⟨claim_c8_size_sum_warning.2.1 "/cwd" ⟨"s", none, []⟩ "w" none none none
      (SectionItem.node SplitDir.vertical none
        [SectionItem.pane "a" none none none (some "30%"),
         SectionItem.pane "b" none none none (some "30%")]) (by decide),
   claim_c8_size_sum_warning.2.2
      (SectionItem.node SplitDir.vertical none
        [SectionItem.pane "a" none none none (some "30%"),
         SectionItem.pane "b" none none none (some "30%")]) (by decide),
   claim_c8_size_sum_warning.1 "/cwd" ⟨"s", none, []⟩ "w" none none none
      (SectionItem.node SplitDir.vertical none
        [SectionItem.pane "main" none none none none,
         SectionItem.pane "main" none none none none])
      ResolveError.duplicatePaneName (by rfl)⟩

end TmuxLayout

namespace GenerateImage

/-- C9 counterexample: the claim states that the image is written at the
first part containing `inlineData` and that the output path is
`options.outputPath` whenever provided.  But a part whose `text` is truthy
is skipped by the `else if` even when it carries `inlineData`, so a
response whose only part has both fields throws instead of writing, and a
provided empty output path falls back to the default because of the
JavaScript `||`. -/
theorem claim_c9_counterexample :
    (([⟨some "caption", some "imagedata"⟩] : List Part).any
        (fun p => p.inlineData.isSome) = true) ∧
    generateImageParts none [⟨some "caption", some "imagedata"⟩] =
      Except.error "No image was generated in the response" ∧
    generateImageParts (some "") [⟨none, some "d"⟩] =
      Except.ok ("generated-image.png", "d") ∧
    ("generated-image.png" : String) ≠ "" :=
  ⟨rfl, rfl, rfl, by decide⟩

/-- C9 amended: `generateImage` iterates the parts of the first candidate
in order; a part with truthy (non-empty) `text` is logged and skipped even
if it also carries `inlineData`; at the first part with falsy `text` and
`inlineData` present it writes the image to the output path
(`options.outputPath` when provided and non-empty, otherwise
`generated-image.png`) and returns that path; if every part has truthy
`text` or lacks `inlineData`, it throws `Error('No image was generated in
the response')` and writes no file. -/
theorem claim_c9_amended :
    (∀ (out : String) (ps : List Part),
        (∀ p ∈ ps, truthyStr p.text = true ∨ p.inlineData = none) →
        processParts out ps =
          Except.error "No image was generated in the response") ∧
    (∀ (out : String) (pre : List Part) (q : Part) (post : List Part) (d : String),
        (∀ p ∈ pre, truthyStr p.text = true ∨ p.inlineData = none) →
        truthyStr q.text = false → q.inlineData = some d →
        processParts out (pre ++ q :: post) = Except.ok (out, d)) ∧
    resolveOutputPath none = "generated-image.png" ∧
    resolveOutputPath (some "") = "generated-image.png" ∧
    (∀ s : String, s ≠ "" → resolveOutputPath (some s) = s) ∧
    (∀ (out : Option String) (ps : List Part),
        generateImageParts out ps = processParts (resolveOutputPath out) ps) := by
  refine ⟨fun out ps h => ?_, fun out pre q post d hpre hq hd => ?_,
    rfl, rfl, fun s hs => by simp [resolveOutputPath, hs], fun out ps => rfl⟩
  · induction ps with
    | nil => rfl
    | cons p ps ih =>
      have hp := h p (List.mem_cons_self p ps)
      have hrest : ∀ p ∈ ps, truthyStr p.text = true ∨ p.inlineData = none :=
        fun x hx => h x (List.mem_cons_of_mem p hx)
      rcases hp with hp | hp
      · unfold processParts
        rw [if_pos hp]
        exact ih hrest
      · unfold processParts
        by_cases ht : truthyStr p.text = true
        · rw [if_pos ht]
          exact ih hrest
        · rw [if_neg ht, hp]
          exact ih hrest
  · induction pre with
    | nil =>
      show processParts out (q :: post) = _
      unfold processParts
      rw [if_neg (by rw [hq]; exact Bool.false_ne_true), hd]
    | cons p pre ih =>
      have hp := hpre p (List.mem_cons_self p pre)
      have hrest : ∀ x ∈ pre, truthyStr x.text = true ∨ x.inlineData = none :=
        fun x hx => hpre x (List.mem_cons_of_mem p hx)
      show processParts out (p :: (pre ++ q :: post)) = _
      unfold processParts
      rcases hp with hp | hp
      · rw [if_pos hp]
        exact ih hrest
      · by_cases ht : truthyStr p.text = true
        · rw [if_pos ht]
          exact ih hrest
        · rw [if_neg ht, hp]
          exact ih hrest

/-- Witness for C9 amended: a text-only part followed by an image part
writes the image part's data to the default path; a response of parts that
are all text-only or empty throws; a non-empty provided output path is
kept. -/
theorem claim_c9_amended_witness :
    processParts "generated-image.png"
        ([⟨some "caption", some "skipped"⟩] ++ (⟨none, some "imagedata"⟩ : Part) :: []) =
      Except.ok ("generated-image.png", "imagedata") ∧
    processParts "out.png" [⟨some "note", none⟩, ⟨none, none⟩] =
      Except.error "No image was generated in the response" ∧
    resolveOutputPath (some "cat.png") = "cat.png" :=
  ⟨claim_c9_amended.2.1 "generated-image.png" [⟨some "caption", some "skipped"⟩]
      ⟨none, some "imagedata"⟩ [] "imagedata"
      (by intro p hp; simp at hp; rw [hp]; exact Or.inl rfl) rfl rfl,
   claim_c9_amended.1 "out.png" [⟨some "note", none⟩, ⟨none, none⟩]
      (by
        intro p hp
        simp at hp
        rcases hp with hp | hp
        · rw [hp]; exact Or.inl rfl
        · rw [hp]; exact Or.inr rfl),
   claim_c9_amended.2.2.2.2.1 "cat.png" (by decide)⟩

/-- C10: the MIME type attached to the inline image data is determined
solely by the lowercased extension of the input path: `.jpg` and `.jpeg`
map to `image/jpeg`, `.png` to `image/png`, `.webp` to `image/webp`,
`.gif` to `image/gif`, and every other extension, including none, falls
back to `image/png`. -/
theorem claim_c10_mime_type :
    (∀ p : String, lowerStr (extname p) = ".jpg" ∨ lowerStr (extname p) = ".jpeg" →
        mimeTypeOf p = "image/jpeg") ∧
    (∀ p : String, lowerStr (extname p) = ".png" → mimeTypeOf p = "image/png") ∧
    (∀ p : String, lowerStr (extname p) = ".webp" → mimeTypeOf p = "image/webp") ∧
    (∀ p : String, lowerStr (extname p) = ".gif" → mimeTypeOf p = "image/gif") ∧
    (∀ p : String, lowerStr (extname p) ≠ ".jpg" → lowerStr (extname p) ≠ ".jpeg" →
        lowerStr (extname p) ≠ ".png" → lowerStr (extname p) ≠ ".webp" →
        lowerStr (extname p) ≠ ".gif" → mimeTypeOf p = "image/png") ∧
    (∀ p q : String, lowerStr (extname p) = lowerStr (extname q) →
        mimeTypeOf p = mimeTypeOf q) := by
  refine ⟨fun p h => ?_, fun p h => ?_, fun p h => ?_, fun p h => ?_,
    fun p h1 h2 h3 h4 h5 => ?_, fun p q h => ?_⟩
  · unfold mimeTypeOf mimeTypeOfExt
    rcases h with h | h <;> rw [h] <;> simp
  · unfold mimeTypeOf mimeTypeOfExt
    rw [h]
    decide
  · unfold mimeTypeOf mimeTypeOfExt
    rw [h]
    decide
  · unfold mimeTypeOf mimeTypeOfExt
    rw [h]
    decide
  · unfold mimeTypeOf mimeTypeOfExt
    rw [if_neg (by rw [not_or]; exact ⟨h1, h2⟩), if_neg h3, if_neg h4, if_neg h5]
  · unfold mimeTypeOf
    rw [h]

/-- Witness for C10: concrete extensions exercise every branch, including
uppercase lowering and the fallback for an unknown or missing
extension. -/
theorem claim_c10_mime_type_witness :
    mimeTypeOf "photo.JPG" = "image/jpeg" ∧
    mimeTypeOf "a/b.jpeg" = "image/jpeg" ∧
    mimeTypeOf "x.PnG" = "image/png" ∧
    mimeTypeOf "x.webp" = "image/webp" ∧
    mimeTypeOf "anim.GIF" = "image/gif" ∧
    mimeTypeOf "doc.txt" = "image/png" ∧
    mimeTypeOf "noextension" = "image/png" :=
  ⟨claim_c10_mime_type.1 "photo.JPG" (Or.inl (by decide)),
   claim_c10_mime_type.1 "a/b.jpeg" (Or.inr (by decide)),
   claim_c10_mime_type.2.1 "x.PnG" (by decide),
   claim_c10_mime_type.2.2.1 "x.webp" (by decide),
   claim_c10_mime_type.2.2.2.1 "anim.GIF" (by decide),
   claim_c10_mime_type.2.2.2.2.1 "doc.txt" (by decide) (by decide) (by decide)
      (by decide) (by decide),
   claim_c10_mime_type.2.2.2.2.1 "noextension" (by decide) (by decide) (by decide)
      (by decide) (by decide)⟩

end GenerateImage
